import Mathlib

/-
Shallow embedding of the float-controller cooperative orchestration layer:
the task registry (components/TaskStore.py), the event registry
(components/EventStore.py), the time-sync watchdog (drivers/NTPTime.py),
the network watchdog (drivers/Wifi.py) and the status-indicator engine
(drivers/StatusLED.py). Python dictionaries are modelled as association
lists preserving insertion order (CPython and MicroPython dicts iterate in
insertion order); a key set on an existing entry keeps its position, as in
Python. Exceptions are modelled with Except; a bare Python except clause
becomes an explicit catch of the Except value.
-/

/-- Lookup in an insertion-ordered association list, as Python dict indexing. -/
def alookup {κ α : Type} [DecidableEq κ] : List (κ × α) → κ → Option α
  | [], _ => none
  | (k2, v) :: rest, k => if k2 = k then some v else alookup rest k

/-- Store a key in an insertion-ordered association list: an existing key
keeps its position, a new key goes to the end, as Python dict assignment. -/
def aset {κ α : Type} [DecidableEq κ] : List (κ × α) → κ → α → List (κ × α)
  | [], k, v => [(k, v)]
  | (k2, v2) :: rest, k, v =>
      if k2 = k then (k2, v) :: rest else (k2, v2) :: aset rest k v

/-- Remove a key from an association list, as the Python del statement. -/
def adel {κ α : Type} [DecidableEq κ] : List (κ × α) → κ → List (κ × α)
  | [], _ => []
  | (k2, v2) :: rest, k => if k2 = k then rest else (k2, v2) :: adel rest k

/-- A live asyncio task handle: an identity plus the cooperative
cancellation flag that task.cancel() sets. -/
structure TaskHandle where
  id : Nat
  cancelled : Bool
deriving Repr, DecidableEq

/-- A value held by the task registry dictionary: either a task handle or a
per-module sub-dictionary (TaskStore nests plain dicts inside the top
dict, so a value is dynamically one or the other). -/
inductive TVal where
  | task (h : TaskHandle)
  | scope (entries : List (String × TVal))

/-- The value TaskStore.create_task returns: True, a RuntimeWarning when
the name exists and recreate is not set, or a caught exception. -/
inductive CreateResult where
  | ok
  | warning
  | err (msg : String)
deriving Repr, DecidableEq

/-- Embedding of TaskStore.create_task. Returns the updated store, the
returned value, and whether a fresh unit of work was spawned; newId is the
identity asyncio.create_task would assign to the fresh task. When the
stored value under the name is a sub-dictionary, calling cancel on it
raises AttributeError, caught by the except clause; when the module
argument names a key holding a task, the membership test on a task object
raises TypeError, likewise caught. -/
def create_task (store : List (String × TVal)) (name : String)
    (module : Option String) (recreate : Bool) (newId : Nat) :
    List (String × TVal) × CreateResult × Bool :=
  match module with
  | none =>
    match alookup store name with
    | some (.task h) =>
      if recreate then
        let cancelled := aset store name (.task { h with cancelled := true })
        (aset cancelled name (.task { id := newId, cancelled := false }), .ok, true)
      else (store, .warning, false)
    | some (.scope _) =>
      if recreate then (store, .err "AttributeError", false)
      else (store, .warning, false)
    | none => (aset store name (.task { id := newId, cancelled := false }), .ok, true)
  | some m =>
    match alookup store m with
    | some (.task _) => (store, .err "TypeError", false)
    | some (.scope entries) =>
      match alookup entries name with
      | some (.task h) =>
        if recreate then
          let cancelled := aset entries name (.task { h with cancelled := true })
          (aset store m (.scope
              (aset cancelled name (.task { id := newId, cancelled := false }))),
            .ok, true)
        else (store, .warning, false)
      | some (.scope _) =>
        if recreate then (store, .err "AttributeError", false)
        else (store, .warning, false)
      | none =>
        (aset store m (.scope
            (aset entries name (.task { id := newId, cancelled := false }))),
          .ok, true)
    | none =>
      (aset store m (.scope [(name, .task { id := newId, cancelled := false })]),
        .ok, true)

/-- Embedding of TaskStore.retrieve_task: returns whatever is stored under
the key path, which is dynamically a task or a sub-dictionary; any lookup
failure is caught and becomes None. -/
def retrieve_task (store : List (String × TVal)) (name : String)
    (module : Option String) : Option TVal :=
  match module with
  | none => alookup store name
  | some m =>
    match alookup store m with
    | some (.scope entries) => alookup entries name
    | _ => none

/-- Embedding of TaskStore.retrieve_all_tasks. The source recurses with
self.retrieve_all_tasks(sub_dict), but the method accepts no positional
argument, so the call raises TypeError the moment a sub-dictionary value
is met; the bare except converts the whole call into None. -/
def retrieve_all_tasks : List (String × TVal) → Option (List String)
  | [] => some []
  | (name, .task _) :: rest =>
    match retrieve_all_tasks rest with
    | some l => some (name :: l)
    | none => none
  | (_, .scope _) :: _ => none

/-- Embedding of TaskStore.cancel_task: sets the cancellation flag of the
stored handle; a missing key (KeyError) or a sub-dictionary value
(AttributeError on cancel) is caught and becomes False. -/
def cancel_task (store : List (String × TVal)) (name : String)
    (module : Option String) : List (String × TVal) × Bool :=
  match module with
  | none =>
    match alookup store name with
    | some (.task h) =>
      (aset store name (.task { h with cancelled := true }), true)
    | _ => (store, false)
  | some m =>
    match alookup store m with
    | some (.scope entries) =>
      match alookup entries name with
      | some (.task h) =>
        (aset store m (.scope (aset entries name (.task { h with cancelled := true }))),
          true)
      | _ => (store, false)
    | _ => (store, false)

/-- The try block of TaskStore.cancel_all_tasks: cancels handles in order
until a sub-dictionary value is met, where the self-call carrying an extra
argument raises TypeError. Returns the store as mutated so far together
with the outcome. -/
def cancel_all_body : List (String × TVal) → List (String × TVal) × Except String Bool
  | [] => ([], .ok true)
  | (k, .task h) :: rest =>
    let r := cancel_all_body rest
    ((k, .task { h with cancelled := true }) :: r.1, r.2)
  | (k, .scope s) :: rest => ((k, .scope s) :: rest, .error "TypeError")

/-- Embedding of TaskStore.cancel_all_tasks: the bare except converts any
exception from the body into a False return, so the caller always gets a
boolean. -/
def cancel_all_tasks (store : List (String × TVal)) :
    List (String × TVal) × Except String Bool :=
  match cancel_all_body store with
  | (s, .ok b) => (s, .ok b)
  | (s, .error _) => (s, .ok false)

/-- Embedding of TaskStore.delete_task: first calls cancel_task ignoring
its result, then deletes the entry; a missing key or a non-dictionary
module value raises and is caught into False. The module key itself is
never removed. -/
def delete_task (store : List (String × TVal)) (name : String)
    (module : Option String) : List (String × TVal) × Bool :=
  let s1 := (cancel_task store name module).1
  match module with
  | none =>
    match alookup s1 name with
    | some _ => (adel s1 name, true)
    | none => (s1, false)
  | some m =>
    match alookup s1 m with
    | some (.scope entries) =>
      match alookup entries name with
      | some _ => (aset s1 m (.scope (adel entries name)), true)
      | none => (s1, false)
    | _ => (s1, false)

/-- The try block of TaskStore.delete_all_tasks: cancels and deletes
entries in order until a sub-dictionary value is met, where the self-call
carrying an extra argument raises TypeError. Iteration is modelled over
the entry sequence; any platform-specific exception from mutating the dict
during iteration would equally land in the bare except. -/
def delete_all_body : List (String × TVal) → List (String × TVal) × Except String Bool
  | [] => ([], .ok true)
  | (_, .task _) :: rest => delete_all_body rest
  | (k, .scope s) :: rest => ((k, .scope s) :: rest, .error "TypeError")

/-- Embedding of TaskStore.delete_all_tasks: the bare except converts any
exception from the body into a False return, so the caller always gets a
boolean. -/
def delete_all_tasks (store : List (String × TVal)) :
    List (String × TVal) × Except String Bool :=
  match delete_all_body store with
  | (s, .ok b) => (s, .ok b)
  | (s, .error _) => (s, .ok false)

/-- A Python dictionary key of the event store: the API uses strings, but
the source also indexes sub-dictionaries with integer literals, so keys
are dynamically typed. -/
inductive PyKey where
  | str (s : String)
  | int (n : Int)
deriving Repr, DecidableEq

/-- The observable behaviour of one stored subscriber action when invoked:
it returns a value (which is or is not a coroutine object) or raises. -/
inductive SubAction where
  | returns (isCoro : Bool)
  | raises (msg : String)
deriving Repr, DecidableEq

/-- A value held by the event store dictionary: a per-module
sub-dictionary mapping names to (asyncio.Event, subscriber-list) pairs, or
directly such a pair; the source treats values dynamically, so both shapes
are representable. create_event only ever installs sub-dictionaries. -/
inductive EVal where
  | scope (entries : List (PyKey × (Bool × List SubAction)))
  | record (flag : Bool) (subs : List SubAction)

/-- Embedding of EventStore.create_event: ensures the module
sub-dictionary exists, returns False when the name exists, else installs
(asyncio.Event(), []) under the name. -/
def create_event (store : List (PyKey × EVal)) (module name : String) :
    List (PyKey × EVal) × Bool :=
  let store1 : List (PyKey × EVal) :=
    match alookup store (.str module) with
    | none => aset store (.str module) (.scope [])
    | some _ => store
  match alookup store1 (.str module) with
  | some (.scope entries) =>
    match alookup entries (.str name) with
    | some _ => (store1, false)
    | none =>
      (aset store1 (.str module) (.scope (aset entries (.str name) (false, []))), true)
  | some (.record _ _) => (store1, false)
  | none => (store1, false)

/-- Embedding of EventStore.set_event. The source reads
self._eventstore[name][0].set(): it indexes the top level with the event
NAME rather than the module, and then indexes with the integer 0. For any
store built through create_event the outer lookup raises KeyError (or the
inner one does, or set() on a tuple raises AttributeError), and the except
clause returns False; only a record sitting directly at the top level
under the name would actually be set. -/
def set_event (store : List (PyKey × EVal)) (module name : String) :
    List (PyKey × EVal) × Bool :=
  match alookup store (.str name) with
  | none => (store, false)
  | some (.scope _) => (store, false)
  | some (.record _ subs) => (aset store (.str name) (.record true subs), true)

/-- Embedding of EventStore.clear_event: reads
self._eventstore[module][name][0].clear(); failures are caught into
False. -/
def clear_event (store : List (PyKey × EVal)) (module name : String) :
    List (PyKey × EVal) × Bool :=
  match alookup store (.str module) with
  | some (.scope entries) =>
    match alookup entries (.str name) with
    | some (_, subs) =>
      (aset store (.str module) (.scope (aset entries (.str name) (false, subs))), true)
    | none => (store, false)
  | _ => (store, false)

/-- Embedding of EventStore.subscribe_task: appends the action to the
subscriber list of the named event; failures are caught into False. -/
def subscribe_task (store : List (PyKey × EVal)) (module name : String)
    (a : SubAction) : List (PyKey × EVal) × Bool :=
  match alookup store (.str module) with
  | some (.scope entries) =>
    match alookup entries (.str name) with
    | some (flag, subs) =>
      (aset store (.str module) (.scope (aset entries (.str name) (flag, subs ++ [a]))),
        true)
    | none => (store, false)
  | _ => (store, false)

/-- The subscriber loop of EventStore.execute_subscribers, also reporting
which subscriber positions were actually invoked. For each task the guard
isinstance(task(), _async()) first calls the task — so a raising
subscriber propagates its exception — and otherwise raises TypeError
itself, because _async() is a coroutine object and not a type. -/
def run_subs : List SubAction → Except String Bool × List Nat
  | [] => (.ok true, [])
  | .raises msg :: _ => (.error msg, [0])
  | .returns _ :: _ => (.error "TypeError: isinstance arg 2 is not a type", [0])

/-- Embedding of EventStore.execute_subscribers together with the list of
subscriber positions invoked. The source reads self._eventstore[event][1]:
when the event argument names a module sub-dictionary, the index 1 is an
integer key lookup that raises KeyError (or, were such a key present,
iterating its tuple value would raise TypeError on calling the event
object); only a record sitting directly at the top level reaches the
subscriber loop. The final except re-raises instead of returning False. -/
def execute_subscribers (store : List (PyKey × EVal)) (event : PyKey) :
    Except String Bool × List Nat :=
  match alookup store event with
  | none => (.error "KeyError", [])
  | some (.scope entries) =>
    match alookup entries (.int 1) with
    | none => (.error "KeyError", [])
    | some _ => (.error "TypeError", [])
  | some (.record _ subs) => run_subs subs

/-- State owned by the time-sync watchdog (drivers/NTPTime.py). -/
structure NTPState where
  last_sync : Nat
  initial_sync : Bool
  status_code : Nat
  sync_interval : Nat
  ntp_timeout : Nat
  max_retries : Nat
deriving Repr, DecidableEq

/-- Embedding of NTPTime.sync_time. For each attempt, indexed by the
failures counter, env gives whether ntptime.settime() succeeds and the
value T.ticks_ms() reads around that attempt. Returns the driver state and
the Python return value; none models the implicit None that the retry
branch returns after the awaited recursive call. -/
def sync_time (env : Nat → Bool × Nat) (s : NTPState) (failures : Nat) :
    NTPState × Option Bool :=
  let ok := (env failures).1
  let now := (env failures).2
  let s1 := { s with initial_sync := true }
  if ok then
    ({ s1 with last_sync := now, status_code := 1 }, some true)
  else if hlt : failures < s.max_retries - 1 then
    ((sync_time env s1 (failures + 1)).1, none)
  else
    ({ s1 with last_sync := now, status_code := 2 }, some false)
termination_by s.max_retries - 1 - failures
decreasing_by omega

/-- State owned by the network watchdog (drivers/Wifi.py). -/
structure WifiState where
  was_connected : Bool
  status_code : Nat
  retry_interval : Nat
  timeout : Nat
  max_failures : Nat
  backoff_interval : Nat
deriving Repr, DecidableEq

/-- An observable step of the network watchdog: a connection attempt
(tagged with the failures counter it was made under) or an awaited sleep
of a number of seconds. -/
inductive WifiEv where
  | attempt (failures : Nat)
  | sleep (seconds : Nat)
deriving Repr, DecidableEq

/-- Embedding of WifiDriver.connect together with an event trace listing
each connection attempt and each sleep in order. For each attempt, indexed
by the failures counter, env gives whether _do_connect associates within
the timeout; a failed attempt raises and lands in the except branch, which
retries after retry_interval while failures < max_failures and otherwise
sets the status code to 2 and sleeps for backoff_interval before returning
False. The retry branch discards the recursive return value and returns
the implicit None. -/
def connect (env : Nat → Bool) (s : WifiState) (failures : Nat) :
    WifiState × Option Bool × List WifiEv :=
  if env failures then
    ({ s with was_connected := true, status_code := 1 }, some true, [.attempt failures])
  else if hlt : failures < s.max_failures then
    let r := connect env s (failures + 1)
    (r.1, none, .attempt failures :: .sleep s.retry_interval :: r.2.2)
  else
    ({ s with status_code := 2 }, some false,
      [.attempt failures, .sleep s.backoff_interval])
termination_by s.max_failures + 1 - failures
decreasing_by omega

/-- Count of connection attempts in a network watchdog trace. -/
def countAttempts (tr : List WifiEv) : Nat :=
  tr.countP (fun e => match e with | .attempt _ => true | .sleep _ => false)

/-- One iteration of the WifiDriver._wifi_watchdog loop body. isconnected1
is what the interface reports at the top of the loop, isconnected2 what it
reports at the soft-reset check after the possible connect call; the loop
then sleeps 100 ms. When the interface is down, connect is re-invoked with
the failures counter at its default of zero. -/
def wifi_watchdog_pass (env : Nat → Bool) (isconnected1 isconnected2 : Bool)
    (s : WifiState) : WifiState × List WifiEv :=
  let r : WifiState × Option Bool × List WifiEv :=
    if isconnected1 then (s, none, []) else connect env s 0
  let s1 := r.1
  let s2 :=
    if isconnected2 && !s1.was_connected then
      { s1 with was_connected := true, status_code := 1 }
    else s1
  (s2, r.2.2)

/-- A visual-effect task spawned by the status indicator engine. -/
structure LedTask where
  id : Nat
  cancelled : Bool
deriving Repr, DecidableEq

/-- State of the status indicator engine (drivers/StatusLED.py): every
effect task spawned so far, the identity of the _current_task slot when it
holds a task object, and the next fresh task identity. -/
structure LedState where
  tasks : List LedTask
  current : Option Nat
  nextId : Nat
deriving Repr, DecidableEq

/-- The attributes of StatusLED that the hasattr guard in set can resolve
as effects. -/
def effect_exists (e : String) : Bool :=
  e = "off" || e = "on" || e = "blink" || e = "breathe" ||
    e = "set_freq" || e = "get_freq" || e = "get_duty" || e = "set_duty"

/-- The effects of StatusLED that are coroutine functions, so that set
dispatches them as background tasks; the others run synchronously. -/
def effect_is_async (e : String) : Bool :=
  e = "blink" || e = "breathe"

/-- Request cancellation of the task with the given identity, as
task.cancel() on the stored handle. -/
def cancelLedTask (tasks : List LedTask) (i : Nat) : List LedTask :=
  tasks.map (fun t => if t.id = i then { t with cancelled := true } else t)

/-- The first step of StatusLED.set: if the _current_task slot holds a
task object (it then has a cancel attribute) request its cancellation;
otherwise the slot is set to None, leaving it None. -/
def ledCancelPhase (s : LedState) : LedState :=
  match s.current with
  | some i => { s with tasks := cancelLedTask s.tasks i }
  | none => s

/-- Embedding of StatusLED.set: first cancel the task in the _current_task
slot if it has a cancel attribute, then raise ValueError on an unknown
effect, then invoke the effect and, when it is a coroutine, spawn it as a
fresh task recorded in _current_task. On the error path the cancellation
already performed persists. -/
def ledSet (s : LedState) (effect : String) : LedState × Except String Unit :=
  let s1 := ledCancelPhase s
  if !effect_exists effect then
    (s1, .error "ValueError: Invalid effect")
  else if effect_is_async effect then
    ({ s1 with
        tasks := s1.tasks ++ [{ id := s1.nextId, cancelled := false }],
        current := some s1.nextId,
        nextId := s1.nextId + 1 }, .ok ())
  else
    (s1, .ok ())

/-- The engine state at construction: no effect task, _current_task is
None. -/
def ledInit : LedState := { tasks := [], current := none, nextId := 0 }

/-- The engine state after the status-code watchdog has issued the given
sequence of set calls, as _check_status_code does on each observed status
change. -/
def ledRun (effects : List String) : LedState :=
  effects.foldl (fun s e => (ledSet s e).1) ledInit

/-- Number of effect tasks whose cancellation has not been requested. -/
def countActive (s : LedState) : Nat :=
  s.tasks.countP (fun t => !t.cancelled)

/-- Invariant maintained by the status indicator engine: task identities
strictly increase along the spawn list, all lie below the next fresh
identity, and any task whose cancellation was never requested is the one
recorded in the _current_task slot. -/
def LedInv (s : LedState) : Prop :=
  s.tasks.Pairwise (fun a b => a.id < b.id) ∧
  (∀ t ∈ s.tasks, t.id < s.nextId) ∧
  (∀ t ∈ s.tasks, t.cancelled = false → s.current = some t.id)

theorem alookup_aset {κ α : Type} [DecidableEq κ] (l : List (κ × α)) (k : κ) (v : α) :
    alookup (aset l k v) k = some v := by
  induction l with
  | nil => simp [aset, alookup]
  | cons p rest ih =>
    obtain ⟨k2, v2⟩ := p
    by_cases h : k2 = k
    · simp [aset, alookup, h]
    · simp [aset, alookup, h, ih]

/-- C5: the claim says that after create_event(module, name) succeeds,
set_event(module, name) returns true and leaves the signal set. The code
contradicts it: set_event reads self._eventstore[name][0] instead of
self._eventstore[module][name][0], so on the store produced by
create_event("wifi", "connected") it raises KeyError internally, returns
False, and the signal stays cleared. -/
theorem C5_set_event_after_create_returns_false :
    (create_event [] "wifi" "connected").2 = true ∧
    set_event (create_event [] "wifi" "connected").1 "wifi" "connected" =
      ((create_event [] "wifi" "connected").1, false) ∧
    alookup (set_event (create_event [] "wifi" "connected").1 "wifi" "connected").1
        (.str "wifi") =
      some (.scope [(.str "connected", (false, []))]) :=
  ⟨rfl, rfl, rfl⟩

/-- C6: the claim says retrieve_all_tasks returns a flat sequence holding
every registered task name, recursing into module sub-scopes. The code
contradicts it: the recursive self-call passes the sub-dictionary as an
extra positional argument, raising TypeError, and the bare except turns
the whole call into None — so a task created under a module name never
appears in any returned sequence. -/
theorem C6_retrieve_all_tasks_with_module_is_none :
    (create_task [] "watchdog" (some "wifi") false 0).2 = (CreateResult.ok, true) ∧
    retrieve_all_tasks (create_task [] "watchdog" (some "wifi") false 0).1 = none :=
  ⟨rfl, rfl⟩

/-- C3: the claim says execute_subscribers invokes every subscribed action
exactly once in subscription order. The code contradicts it: it reads
self._eventstore[event][1], indexing the module level with the event
argument and then with the integer 1, so on a store built by create_event
plus subscribe_task it raises KeyError — whether called with the module
name or the event name — and invokes no subscriber at all. -/
theorem C3_execute_subscribers_invokes_nothing :
    (subscribe_task (create_event [] "wifi" "up").1 "wifi" "up"
        (.returns false)).2 = true ∧
    execute_subscribers
        (subscribe_task (create_event [] "wifi" "up").1 "wifi" "up"
          (.returns false)).1 (.str "wifi") = (.error "KeyError", []) ∧
    execute_subscribers
        (subscribe_task (create_event [] "wifi" "up").1 "wifi" "up"
          (.returns false)).1 (.str "up") = (.error "KeyError", []) :=
  ⟨rfl, rfl, rfl⟩

/-- C7: cancel_all_tasks followed by delete_all_tasks never surfaces an
exception to the caller, whatever the registry holds — empty stores and
nested module sub-scopes included: the bare except clauses convert every
internal exception (in particular the TypeError both bodies raise on a
sub-dictionary) into a boolean return. -/
theorem C7_cancel_all_then_delete_all_never_raises
    (store : List (String × TVal)) :
    (∃ b1, (cancel_all_tasks store).2 = .ok b1) ∧
    (∃ b2, (delete_all_tasks (cancel_all_tasks store).1).2 = .ok b2) := by
  constructor
  · rcases h : cancel_all_body store with ⟨s, r⟩
    cases r with
    | ok b => exact ⟨b, by simp [cancel_all_tasks, h]⟩
    | error e => exact ⟨false, by simp [cancel_all_tasks, h]⟩
  · rcases h : delete_all_body (cancel_all_tasks store).1 with ⟨s, r⟩
    cases r with
    | ok b => exact ⟨b, by simp [delete_all_tasks, h]⟩
    | error e => exact ⟨false, by simp [delete_all_tasks, h]⟩

/-- C8: when create_task is called for a (module, name) that already holds
a live task and recreate is false, the store is returned unchanged — the
stored handle is untouched and in particular not cancelled — no new unit
of work is spawned, and the non-fatal RuntimeWarning result is returned. -/
theorem C8_create_task_existing_no_recreate_is_frame
    (store : List (String × TVal)) (name : String) (module : Option String)
    (h : TaskHandle) (newId : Nat)
    (hget : retrieve_task store name module = some (.task h)) :
    create_task store name module false newId = (store, .warning, false) := by
  cases module with
  | none =>
    simp only [retrieve_task] at hget
    simp [create_task, hget]
  | some m =>
    simp only [retrieve_task] at hget
    cases h1 : alookup store m with
    | none => rw [h1] at hget; exact absurd hget (by simp)
    | some v =>
      cases v with
      | task h2 => rw [h1] at hget; exact absurd hget (by simp)
      | scope entries =>
        rw [h1] at hget
        have hget2 : alookup entries name = some (.task h) := hget
        simp [create_task, h1, hget2]

/-- C8 witness: a store holding the live task wd under module wifi, where
create_task with recreate off returns the warning and changes nothing. -/
theorem C8_create_task_existing_no_recreate_is_frame_witness :
    retrieve_task [("wifi", .scope [("wd", .task ⟨3, false⟩)])] "wd" (some "wifi") =
      some (.task ⟨3, false⟩) ∧
    create_task [("wifi", .scope [("wd", .task ⟨3, false⟩)])] "wd" (some "wifi")
        false 9 =
      ([("wifi", .scope [("wd", .task ⟨3, false⟩)])], .warning, false) :=
  ⟨rfl, C8_create_task_existing_no_recreate_is_frame _ _ _ _ _ rfl⟩

/-- C10: deleting the last task of a module leaves the module key in the
registry, mapped to an empty sub-dictionary — delete_task removes only the
inner name entry and never cleans up the module scope that create_task
installed. -/
theorem C10_delete_task_keeps_module_scope
    (store : List (String × TVal)) (m name : String) (h : TaskHandle)
    (hm : alookup store m = some (.scope [(name, .task h)])) :
    (delete_task store name (some m)).2 = true ∧
    alookup (delete_task store name (some m)).1 m = some (.scope []) := by
  have hin : alookup [(name, TVal.task h)] name = some (.task h) := by
    simp [alookup]
  have hset : aset [(name, TVal.task h)] name
      (TVal.task { h with cancelled := true }) =
      [(name, TVal.task { h with cancelled := true })] := by
    simp [aset]
  have hcancel : (cancel_task store name (some m)).1 =
      aset store m (.scope [(name, .task { h with cancelled := true })]) := by
    simp [cancel_task, hm, hin, hset]
  have hdel : adel [(name, TVal.task { h with cancelled := true })] name = [] := by
    simp [adel]
  constructor
  · simp [delete_task, hcancel, alookup_aset, alookup, hdel]
  · simp [delete_task, hcancel, alookup_aset, alookup, hdel]

/-- C10 witness: deleting the only task of module wifi succeeds and leaves
the wifi key mapped to an empty sub-dictionary. -/
theorem C10_delete_task_keeps_module_scope_witness :
    alookup [("wifi", TVal.scope [("wd", .task ⟨3, false⟩)])] "wifi" =
      some (.scope [("wd", .task ⟨3, false⟩)]) ∧
    (delete_task [("wifi", .scope [("wd", .task ⟨3, false⟩)])] "wd" (some "wifi")).2 =
      true ∧
    alookup (delete_task [("wifi", .scope [("wd", .task ⟨3, false⟩)])] "wd"
        (some "wifi")).1 "wifi" = some (.scope []) := by
  refine ⟨rfl, ?_, ?_⟩
  · exact (C10_delete_task_keeps_module_scope
      [("wifi", .scope [("wd", .task ⟨3, false⟩)])] "wifi" "wd" ⟨3, false⟩ rfl).1
  · exact (C10_delete_task_keeps_module_scope
      [("wifi", .scope [("wd", .task ⟨3, false⟩)])] "wifi" "wd" ⟨3, false⟩ rfl).2

/-- C4: an exception raised while execute_subscribers runs a subscriber
aborts the rest of the firing pass — no later subscriber is invoked — and
is re-raised to the caller instead of being converted into a False return,
whereas a structural bookkeeping operation such as clear_event on an
unknown module reports failure as a plain False without raising. -/
theorem C4_subscriber_exception_aborts_and_reraises
    (store : List (PyKey × EVal)) (event : PyKey) (flag : Bool) (msg : String)
    (rest : List SubAction) (store2 : List (PyKey × EVal)) (m n : String)
    (hev : alookup store event = some (.record flag (.raises msg :: rest)))
    (hmiss : alookup store2 (.str m) = none) :
    execute_subscribers store event = (.error msg, [0]) ∧
    clear_event store2 m n = (store2, false) := by
  constructor
  · simp [execute_subscribers, hev, run_subs]
  · simp [clear_event, hmiss]

/-- C4 witness: a firing pass whose first subscriber raises stops there
and propagates the exception, while clear_event on an absent module
returns False. -/
theorem C4_subscriber_exception_aborts_and_reraises_witness :
    alookup [(PyKey.str "e", EVal.record false [.raises "boom", .returns true])]
        (PyKey.str "e") = some (.record false [.raises "boom", .returns true]) ∧
    execute_subscribers
        [(PyKey.str "e", EVal.record false [.raises "boom", .returns true])]
        (.str "e") = (.error "boom", [0]) ∧
    clear_event ([] : List (PyKey × EVal)) "wifi" "up" = ([], false) := by
  refine ⟨rfl, ?_, ?_⟩
  · exact (C4_subscriber_exception_aborts_and_reraises
      [(PyKey.str "e", EVal.record false [.raises "boom", .returns true])]
      (.str "e") false "boom" [.returns true] [] "wifi" "up" rfl rfl).1
  · exact (C4_subscriber_exception_aborts_and_reraises
      [(PyKey.str "e", EVal.record false [.raises "boom", .returns true])]
      (.str "e") false "boom" [.returns true] [] "wifi" "up" rfl rfl).2

/-- C1 counterexample: with every NTP attempt failing and the retry budget
exhausted (max_retries one, so the single attempt exhausts it), the status
code does become 2 but the last-success timestamp does NOT keep its prior
value of zero — sync_time overwrites it with the current tick reading, so
the claim that last-success is not updated is false. -/
theorem C1_counterexample_last_sync_updated_on_exhaustion :
    (sync_time (fun _ => (false, 500)) ⟨0, false, 0, 86400, 10, 1⟩ 0).1.status_code
      = 2 ∧
    (sync_time (fun _ => (false, 500)) ⟨0, false, 0, 86400, 10, 1⟩ 0).1.last_sync
      ≠ (⟨0, false, 0, 86400, 10, 1⟩ : NTPState).last_sync := by
  rw [sync_time]
  norm_num

/-- C1 (amended): when every sync attempt fails and the bounded retries
are exhausted, the exported status code becomes 2 AND the last-success
timestamp IS updated to the tick reading of the final failed attempt —
this deliberate update is what makes the watchdog loop wait a full sync
interval before trying again. -/
theorem C1_sync_time_exhaustion_sets_status2_and_updates_last_sync
    (env : Nat → Bool × Nat) (s : NTPState) (f : Nat)
    (hfail : ∀ i, (env i).1 = false) :
    (sync_time env s f).1.status_code = 2 ∧
    (sync_time env s f).1.last_sync = (env (max f (s.max_retries - 1))).2 := by
  rw [sync_time]
  have h0 := hfail f
  by_cases h : f < s.max_retries - 1
  · have ih := C1_sync_time_exhaustion_sets_status2_and_updates_last_sync env
      { s with initial_sync := true } (f + 1) hfail
    have hmax : max (f + 1) (s.max_retries - 1) = max f (s.max_retries - 1) := by
      omega
    simpa [h0, h, hmax] using ih
  · have hmax : max f (s.max_retries - 1) = f := by omega
    simp [h0, h, hmax]
termination_by s.max_retries - 1 - f
decreasing_by omega

/-- C1 witness: five failing attempts, all reading tick 900, leave the
watchdog with status code 2 and last-success updated to 900. -/
theorem C1_sync_time_exhaustion_witness :
    (sync_time (fun _ => (false, 900)) ⟨0, false, 0, 86400, 10, 5⟩ 0).1.status_code
      = 2 ∧
    (sync_time (fun _ => (false, 900)) ⟨0, false, 0, 86400, 10, 5⟩ 0).1.last_sync
      = 900 := by
  have h := C1_sync_time_exhaustion_sets_status2_and_updates_last_sync
    (fun _ => (false, 900)) ⟨0, false, 0, 86400, 10, 5⟩ 0 (fun i => rfl)
  simpa using h

/-- When every connection attempt times out, connect starting at a
failures count of f makes max_failures + 1 - f further attempts, ends with
the status code at 2, and its last awaited wait is the backoff interval. -/
theorem connect_all_fail_aux (env : Nat → Bool) (s : WifiState) (f : Nat)
    (henv : ∀ i, env i = false) (hf : f ≤ s.max_failures) :
    (connect env s f).1.status_code = 2 ∧
    countAttempts (connect env s f).2.2 = s.max_failures + 1 - f ∧
    (connect env s f).2.2.getLast? = some (.sleep s.backoff_interval) := by
  rw [connect]
  have h0 := henv f
  by_cases h : f < s.max_failures
  · have ih := connect_all_fail_aux env s (f + 1) henv (by omega)
    simp only [h0, Bool.false_eq_true, if_false, dif_pos h]
    refine ⟨ih.1, ?_, ?_⟩
    · have := ih.2.1
      simp [countAttempts, List.countP_cons] at this ⊢
      omega
    · have hlast := ih.2.2
      have hne : (connect env s (f + 1)).2.2 ≠ [] := by
        intro hnil
        rw [hnil] at hlast
        simp at hlast
      have : WifiEv.attempt f :: WifiEv.sleep s.retry_interval ::
          (connect env s (f + 1)).2.2 =
          [WifiEv.attempt f, WifiEv.sleep s.retry_interval] ++
            (connect env s (f + 1)).2.2 := rfl
      rw [this, List.getLast?_append_of_ne_nil _ hne]
      exact hlast
  · simp [h0, h, countAttempts]
    omega
termination_by s.max_failures + 1 - f
decreasing_by omega

/-- C2 counterexample: with max_failures one, a retry interval of 5 and a
backoff interval of 300, an always-timing-out interface produces the trace
attempt 0, sleep 5, attempt 1, sleep 300 — after the first (= max_failures
th) consecutive failure the next attempt follows a 5 second retry wait,
not the backoff interval, and the status code reaches 2 only after the
second failed attempt; the trace holds 2 attempts, not max_failures. -/
theorem C2_counterexample_backoff_needs_extra_failure :
    (⟨false, 0, 5, 10, 1, 300⟩ : WifiState).max_failures = 1 ∧
    (connect (fun _ => false) ⟨false, 0, 5, 10, 1, 300⟩ 0).2.2 =
      [.attempt 0, .sleep 5, .attempt 1, .sleep 300] ∧
    countAttempts (connect (fun _ => false) ⟨false, 0, 5, 10, 1, 300⟩ 0).2.2 = 2 := by
  refine ⟨rfl, ?_, ?_⟩ <;>
    · rw [connect, connect]
      norm_num [countAttempts]

/-- C2 (amended): given an interface whose attempts always time out,
connect makes max_failures + 1 consecutive failed attempts (one more than
the claim states), only then sets the exported status code to 2, its final
wait is the backoff interval, and the watchdog loop re-invokes connect
with the failures counter reset to zero, so the next cycle opens with
attempt 0. -/
theorem C2_connect_backoff_after_max_failures_plus_one
    (env : Nat → Bool) (s : WifiState) (henv : ∀ i, env i = false) :
    (connect env s 0).1.status_code = 2 ∧
    countAttempts (connect env s 0).2.2 = s.max_failures + 1 ∧
    (connect env s 0).2.2.getLast? = some (.sleep s.backoff_interval) ∧
    (wifi_watchdog_pass env false false s).2.head? = some (.attempt 0) := by
  obtain ⟨h1, h2, h3⟩ := connect_all_fail_aux env s 0 henv (Nat.zero_le _)
  refine ⟨h1, by simpa using h2, h3, ?_⟩
  have h0 := henv 0
  rw [wifi_watchdog_pass, connect]
  by_cases h : 0 < s.max_failures <;> simp [h0, h]

/-- C2 witness: with max_failures one, the always-failing interface yields
status 2, two attempts, a final 300 second backoff wait, and a next
watchdog cycle opening with attempt 0. -/
theorem C2_connect_backoff_witness :
    (connect (fun _ => false) ⟨false, 0, 5, 10, 1, 300⟩ 0).1.status_code = 2 ∧
    countAttempts (connect (fun _ => false) ⟨false, 0, 5, 10, 1, 300⟩ 0).2.2 = 2 ∧
    (connect (fun _ => false) ⟨false, 0, 5, 10, 1, 300⟩ 0).2.2.getLast? =
      some (.sleep 300) ∧
    (wifi_watchdog_pass (fun _ => false) false false
        ⟨false, 0, 5, 10, 1, 300⟩).2.head? = some (.attempt 0) := by
  have h := C2_connect_backoff_after_max_failures_plus_one
    (fun _ => false) ⟨false, 0, 5, 10, 1, 300⟩ (fun i => rfl)
  simpa using h


theorem cancelLedTask_mem (l : List LedTask) (i : Nat) (t : LedTask)
    (ht : t ∈ cancelLedTask l i) :
    ∃ t0 ∈ l, t.id = t0.id ∧
      (t.cancelled = false → t0.cancelled = false ∧ t0.id ≠ i) := by
  rcases List.mem_map.mp ht with ⟨t0, ht0, rfl⟩
  refine ⟨t0, ht0, ?_, ?_⟩
  · by_cases h : t0.id = i <;> simp [h]
  · by_cases h : t0.id = i <;> simp [h]

theorem cancelLedTask_pairwise (l : List LedTask) (i : Nat)
    (h : l.Pairwise (fun a b => a.id < b.id)) :
    (cancelLedTask l i).Pairwise (fun a b => a.id < b.id) := by
  refine List.Pairwise.map _ ?_ h
  intro a b hab
  by_cases ha : a.id = i <;> by_cases hb : b.id = i <;> simpa [ha, hb] using hab

theorem effect_is_async_exists (e : String) (h : effect_is_async e = true) :
    effect_exists e = true := by
  simp only [effect_is_async, Bool.or_eq_true, decide_eq_true_eq] at h
  rcases h with h | h <;> simp [effect_exists, h]


theorem ledCancelPhase_fields (s : LedState) :
    (ledCancelPhase s).current = s.current ∧ (ledCancelPhase s).nextId = s.nextId := by
  obtain ⟨tasks, cur, nid⟩ := s
  cases cur <;> exact ⟨rfl, rfl⟩

theorem ledCancelPhase_no_active (s : LedState) (hinv : LedInv s) :
    ∀ t ∈ (ledCancelPhase s).tasks,
      t.cancelled = true ∧ ∃ t0 ∈ s.tasks, t.id = t0.id := by
  obtain ⟨tasks, cur, nid⟩ := s
  obtain ⟨hpair, hbound, hcur⟩ := hinv
  cases cur with
  | none =>
    intro t ht
    refine ⟨?_, t, ht, rfl⟩
    by_contra hf
    have h1 := hcur t ht (by simpa using hf)
    exact Option.noConfusion h1
  | some i =>
    intro t ht
    rcases cancelLedTask_mem tasks i t ht with ⟨t0, ht0, hid, hprop⟩
    refine ⟨?_, t0, ht0, hid⟩
    by_contra hf
    rcases hprop (by simpa using hf) with ⟨h1, h2⟩
    have h3 := hcur t0 ht0 h1
    injection h3 with h4
    exact h2 h4.symm

theorem ledCancelPhase_pairwise (s : LedState) (hinv : LedInv s) :
    List.Pairwise (fun (a b : LedTask) => a.id < b.id) (ledCancelPhase s).tasks := by
  obtain ⟨tasks, cur, nid⟩ := s
  cases cur with
  | none => exact hinv.1
  | some i => exact cancelLedTask_pairwise tasks i hinv.1

theorem ledCancelPhase_bound (s : LedState) (hinv : LedInv s) :
    ∀ t ∈ (ledCancelPhase s).tasks, t.id < (ledCancelPhase s).nextId := by
  intro t ht
  rcases (ledCancelPhase_no_active s hinv t ht).2 with ⟨t0, ht0, hid⟩
  rw [hid, (ledCancelPhase_fields s).2]
  exact hinv.2.1 t0 ht0

theorem ledSet_preserves_inv (s : LedState) (e : String) (hinv : LedInv s) :
    LedInv (ledSet s e).1 := by
  have hnoact := ledCancelPhase_no_active s hinv
  have hpair1 := ledCancelPhase_pairwise s hinv
  have hbound1 := ledCancelPhase_bound s hinv
  have hnext1 := (ledCancelPhase_fields s).2
  unfold ledSet
  by_cases he : effect_exists e = true
  · by_cases hasync : effect_is_async e = true
    · simp only [he, hasync, Bool.not_true, Bool.false_eq_true, if_false, if_true]
      refine ⟨?_, ?_, ?_⟩
      · refine List.pairwise_append.mpr ⟨hpair1, by simp, ?_⟩
        intro a ha b hb
        simp only [List.mem_singleton] at hb
        subst hb
        exact hbound1 a ha
      · intro t ht
        rcases List.mem_append.mp ht with h | h
        · exact Nat.lt_succ_of_lt (hbound1 t h)
        · simp only [List.mem_singleton] at h
          subst h
          exact Nat.lt_succ_self _
      · intro t ht hf
        rcases List.mem_append.mp ht with h | h
        · exact absurd (hnoact t h).1 (by simp [hf])
        · simp only [List.mem_singleton] at h
          subst h
          rfl
    · simp only [he, hasync, Bool.not_true, Bool.false_eq_true, if_false]
      refine ⟨hpair1, ?_, ?_⟩
      · intro t ht
        exact hbound1 t ht
      · intro t ht hf
        exact absurd (hnoact t ht).1 (by simp [hf])
  · simp only [he, Bool.not_false, if_true]
    refine ⟨hpair1, ?_, ?_⟩
    · intro t ht
      exact hbound1 t ht
    · intro t ht hf
      exact absurd (hnoact t ht).1 (by simp [hf])

theorem countP_active_le_one (cur : Option Nat) (l : List LedTask)
    (hpair : List.Pairwise (fun (a b : LedTask) => a.id < b.id) l)
    (hcur : ∀ t ∈ l, t.cancelled = false → cur = some t.id) :
    l.countP (fun t => !t.cancelled) ≤ 1 := by
  induction l with
  | nil => simp
  | cons a l ih =>
    rw [List.countP_cons]
    rcases List.pairwise_cons.mp hpair with ⟨ha, hl⟩
    by_cases hc : a.cancelled = false
    · have hzero : l.countP (fun t => !t.cancelled) = 0 := by
        rw [List.countP_eq_zero]
        intro t ht
        simp only [Bool.not_eq_true']
        by_contra hct
        have h1 := hcur t (List.mem_cons_of_mem _ ht) (by simpa using hct)
        have h2 := hcur a (List.mem_cons_self _ _) hc
        have h3 := ha t ht
        rw [h1] at h2
        injection h2 with h4
        omega
      simp [hzero, hc]
    · have hc2 : a.cancelled = true := by simpa using hc
      have := ih hl (fun t ht => hcur t (List.mem_cons_of_mem _ ht))
      simp only [hc2, Bool.not_true, Bool.false_eq_true, if_false]
      omega

theorem ledInit_inv : LedInv ledInit := by
  refine ⟨?_, ?_, ?_⟩ <;> simp [ledInit]

/-- C9: however the status-code watchdog drives set — any sequence of
effect requests, valid or not — the indicator engine never has two live
visual effects: at every reachable state at most one effect task is
non-cancelled, because set always requests cancellation of the in-flight
task before establishing the new effect. -/
theorem C9_at_most_one_active_effect (effects : List String) :
    countActive (ledRun effects) ≤ 1 := by
  have key : ∀ (es : List String) (s0 : LedState), LedInv s0 →
      LedInv (es.foldl (fun s e => (ledSet s e).1) s0) := by
    intro es
    induction es with
    | nil => intro s0 h; simpa using h
    | cons e es ih =>
      intro s0 h
      exact ih _ (ledSet_preserves_inv s0 e h)
  have hinv : LedInv (ledRun effects) := key effects ledInit ledInit_inv
  exact countP_active_le_one (ledRun effects).current (ledRun effects).tasks
    hinv.1 hinv.2.2
